import Mathlib

/-!
Verification development for the gpxplot track pipeline.

This file gives a shallow embedding of the core track-geometry pipeline of
the gpxplot repository and proves properties of it:

* `distance` / `haversin`  — `online/gpxplot.py` lines 103-113 (identical in
  `online/gpxutil.py` and the offline `gpxplot.py`): great-circle distance.
* `read_segment` / `read_all_segments` — `online/gpxplot.py` lines 115-146:
  per-segment gap-filling of timestamps and elevations.
* `reduce_points` — `online/gpxplot.py` lines 148-163: fixed-stride point
  decimation, including the exact Python semantics of the slice
  `seg[:-1:skip]` for zero and negative steps.
* `eval_dist_velocity` — `online/gpxplot.py` lines 165-190: cumulative
  distance and velocity, including the Python truthiness test
  `if prev_lat and prev_lon` (false when a coordinate is `0.0`) and the
  `try/except ZeroDivisionError` guard; `eval_dist_velocity_u` is the
  unguarded variant of `online/gpxutil.py` lines 111-133 (the same velocity
  expression, without the guard, also appears inline in the offline
  `gpxplot.py` `read_gpx_trk`, lines 104-122).
* `google_ext_encode` / `google_ext_encode_data` / `google_chart_url` —
  `online/gpxplot.py` lines 240-305: the Google Chart extended encoding and
  URL builder.
* `attempt` / `plotLoop` / `plot_on_request` — `online/index.py`
  lines 24-73: the adaptive shrink-and-retry loop around the pipeline.

Modelling conventions: Python floats are modelled as exact arithmetic
(rationals for parsed coordinates/elevations, reals for derived distances
and velocities); timestamps are epoch seconds (`Option ℤ`, `none` =
missing), so that Python's `(t2-t1).seconds` is `(t2-t1).emod 86400`;
Python exceptions are modelled with `Except`/`Option` result types;
Python truthiness of a number is `≠ 0`, of an optional value `isSome`.
-/

namespace Gpxplot

open Real

/-- Earth volumetric radius, `R=6371.0008` in the source. -/
noncomputable def R : ℝ := 6371.0008

/-- `milesperkm=0.621371192` in the source. -/
noncomputable def milesperkm : ℝ := 0.621371192

/-- `feetperm=3.2808399` in the source. -/
noncomputable def feetperm : ℝ := 3.2808399

/-- Column index of the timestamp in a track point (`var_time=2`). -/
def var_time : ℕ := 2

/-- Column index of the elevation in a track point (`var_ele=3`). -/
def var_ele : ℕ := 3

/-- Column index of the cumulative distance in a track point (`var_dist=4`). -/
def var_dist : ℕ := 4

/-- Column index of the velocity in a track point (`var_vel=5`). -/
def var_vel : ℕ := 5

/-- `haversin(theta) = sin(0.5*theta)**2`. -/
noncomputable def haversin (θ : ℝ) : ℝ := Real.sin (0.5 * θ) ^ 2

/-- `distance(p1,p2)`: haversine great-circle distance in km between two
`[lat,lon]` pairs given in degrees; `online/gpxplot.py` lines 106-113. -/
noncomputable def distance (p1 p2 : ℚ × ℚ) : ℝ :=
  2 * R * Real.arcsin (Real.sqrt
    (haversin ((p2.1 : ℝ) * π / 180 - (p1.1 : ℝ) * π / 180) +
      Real.cos ((p1.1 : ℝ) * π / 180) * Real.cos ((p2.1 : ℝ) * π / 180) *
        haversin ((p2.2 : ℝ) * π / 180 - (p1.2 : ℝ) * π / 180)))

/-- A raw track point as delivered by the external XML parser: latitude and
longitude in degrees, optional timestamp (epoch seconds), optional
elevation in meters. -/
structure RawPoint where
  lat : ℚ
  lon : ℚ
  time : Option ℤ
  ele : Option ℚ
deriving DecidableEq

/-- A normalized point (`[lat, lon, time, ele]` built by
`read_all_segments`): elevation gaps filled (default 0), timestamp gaps
carried forward within the segment. -/
structure NPoint where
  lat : ℚ
  lon : ℚ
  time : Option ℤ
  ele : ℚ
deriving DecidableEq

/-- A kinematic point (`[lat, lon, time, ele, dist, vel]` built by
`eval_dist_velocity`). -/
structure KPoint where
  lat : ℚ
  lon : ℚ
  time : Option ℤ
  ele : ℚ
  dist : ℝ
  vel : ℝ

/-- Inner loop of `read_all_segments` (`online/gpxplot.py` lines 118-144)
for one segment, carrying `prev_ele` and `prev_time`.  A present timestamp
or elevation updates the carried value; a missing one is replaced by the
carried value (for the elevation the initial carried value is `0.0`, for
the timestamp the point keeps no timestamp while none has been seen). -/
def read_segment : ℚ → Option ℤ → List RawPoint → List NPoint
  | _, _, [] => []
  | prevEle, prevTime, p :: ps =>
    let t : Option ℤ :=
      match p.time with
      | some t0 => some t0
      | none => prevTime
    let e : ℚ :=
      match p.ele with
      | some e0 => e0
      | none => prevEle
    ⟨p.lat, p.lon, t, e⟩ :: read_segment e t ps

/-- `read_all_segments` (`online/gpxplot.py` lines 115-146): per-segment
normalization with the carried state reset at every segment boundary
(`prev_ele,prev_time=0.0,None` inside the segment loop). -/
def read_all_segments (trksegs : List (List RawPoint)) : List (List NPoint) :=
  trksegs.map (read_segment 0 none)

/-- `count=sum([len(s) for s in trk])` in `reduce_points`. -/
def totalCount (trk : List (List α)) : ℕ := (trk.map List.length).sum

/-- The slice stride of `reduce_points`: `skip=int(ceil(ptperpt))` where
`ptperpt = 1.0*count/npoints` when `npoints` is truthy (not `None`, not 0)
and `1.0` otherwise. -/
def reduce_skip (count : ℕ) (npoints : Option ℤ) : ℤ :=
  match npoints with
  | none => 1
  | some n => if n = 0 then 1 else ⌈(count : ℚ) / (n : ℚ)⌉

/-- Helper of `everyNth`: `everyNthGo k c l` skips the next `c` elements
of `l` and then takes an element and resumes with `c = k - 1`. -/
def everyNthGo (k : ℕ) : ℕ → List α → List α
  | _, [] => []
  | 0, x :: xs => x :: everyNthGo k (k - 1) xs
  | c + 1, _ :: xs => everyNthGo k c xs

/-- Every `k`-th element of a list starting from the head (the elements at
indices `0, k, 2k, ...`); used to model a Python slice with positive step
`k`. -/
def everyNth (k : ℕ) (l : List α) : List α := everyNthGo k 0 l

/-- Python's `seg[:-1:k]` for an arbitrary integer step `k`: `none` models
the `ValueError` raised for step 0; a negative step yields `[]` (for
`slice(None, -1, k)` the start and stop indices coincide at `len-1`); a
positive step takes every `k`-th element of `seg[:-1]`. -/
def pySliceToLastBy (k : ℤ) (seg : List α) : Option (List α) :=
  if k = 0 then none
  else if 0 < k then some (everyNth k.toNat seg.dropLast)
  else some []

/-- One segment of `reduce_points`: `newseg=seg[:-1:skip]+[seg[-1]]`
(`online/gpxplot.py` line 159); `none` models a raised exception. -/
def segReduce (k : ℤ) (seg : List α) : Option (List α) :=
  match pySliceToLastBy k seg, seg.getLast? with
  | some pre, some a => some (pre ++ [a])
  | _, _ => none

/-- Option-valued map over a list, failing if any element fails; models a
loop that can raise. -/
def optMap (g : α → Option β) : List α → Option (List β)
  | [] => some []
  | a :: as =>
    match g a, optMap g as with
    | some b, some bs => some (b :: bs)
    | _, _ => none

/-- `reduce_points(trk,npoints)` (`online/gpxplot.py` lines 148-163):
decimate every non-empty segment with stride `reduce_skip`, always keeping
the segment's last point; empty segments are skipped.  `none` models the
`ValueError` Python raises when the stride is 0 and some non-empty segment
is sliced. -/
def reduce_points (trk : List (List α)) (npoints : Option ℤ) : Option (List (List α)) :=
  optMap (segReduce (reduce_skip (totalCount trk) npoints)) (trk.filter fun s => !s.isEmpty)

/-- Total description of one reduced segment for a (nonnegative) stride
`k`: `seg[:-1:k] + [seg[-1]]`. -/
def segReducePos (k : ℕ) (seg : List α) : List α :=
  everyNth k seg.dropLast ++
    (match seg.getLast? with
     | some a => [a]
     | none => [])

/-- Python's `(t2 - t1).seconds` for two epoch-second instants: the
`timedelta` seconds component, i.e. the elapsed seconds reduced modulo
86400 with whole days discarded (always in `[0, 86400)`). -/
def pySeconds (t1 t2 : ℤ) : ℤ := (t2 - t1) % 86400

/-- Body of the point loop of `eval_dist_velocity` (`online/gpxplot.py`
lines 172-188) for one point: given the running total `dist` and the
previous point of the segment (or `none` at the segment start), produce
the new running total and the kinematic point.  `if prev_lat and prev_lon`
is Python truthiness: it also fails when the previous latitude or
longitude equals `0.0`, giving `delta=0.0, vel=0.0`.  The
`try/except ZeroDivisionError` around the velocity division is modelled by
the `pySeconds pt t = 0` test. -/
noncomputable def evalPoint (dist : ℝ) (prev : Option NPoint) (p : NPoint) : ℝ × KPoint :=
  let dv : ℝ × ℝ :=
    match prev with
    | some q =>
      if q.lat ≠ 0 ∧ q.lon ≠ 0 then
        let delta := distance (p.lat, p.lon) (q.lat, q.lon)
        let vel : ℝ :=
          match p.time, q.time with
          | some t, some pt =>
            if pySeconds pt t = 0 then 0
            else 3600 * delta / ((pySeconds pt t : ℤ) : ℝ)
          | _, _ => 0
        (delta, vel)
      else (0, 0)
    | none => (0, 0)
  (dist + dv.1, ⟨p.lat, p.lon, p.time, p.ele, dist + dv.1, dv.2⟩)

/-- The point loop of `eval_dist_velocity` over one segment, threading the
running total; `prev` starts at `none` for each segment. -/
noncomputable def evalSeg : ℝ → Option NPoint → List NPoint → ℝ × List KPoint
  | dist, _, [] => (dist, [])
  | dist, prev, p :: ps =>
    let r := evalPoint dist prev p
    let rest := evalSeg r.1 (some p) ps
    (rest.1, r.2 :: rest.2)

/-- The segment loop of `eval_dist_velocity`: empty segments are skipped
(`if len(seg)>0`), the running total persists across segment boundaries. -/
noncomputable def evalTrk : ℝ → List (List NPoint) → List (List KPoint)
  | _, [] => []
  | dist, seg :: rest =>
    if seg.isEmpty then evalTrk dist rest
    else
      let r := evalSeg dist none seg
      r.2 :: evalTrk r.1 rest

/-- `eval_dist_velocity(trk)` (`online/gpxplot.py` lines 165-190), starting
from `dist=0.0`. -/
noncomputable def eval_dist_velocity (trk : List (List NPoint)) : List (List KPoint) :=
  evalTrk 0 trk

/-- Python exceptions of the modelled code paths. -/
inductive PyErr
  | overflow
  | valueErr
  | noAltitude
  | sliceStepZero
  | zeroDiv
deriving DecidableEq

/-- Body of the point loop of the unguarded `eval_dist_velocity` variant
(`online/gpxutil.py` lines 118-131; the same unguarded velocity expression
appears inline in the offline `gpxplot.py`, lines 111-120): no
`try/except` around the division, so a zero `.seconds` value raises
`ZeroDivisionError`. -/
noncomputable def evalPointU (dist : ℝ) (prev : Option NPoint) (p : NPoint) :
    Except PyErr (ℝ × KPoint) :=
  match prev with
  | some q =>
    if q.lat ≠ 0 ∧ q.lon ≠ 0 then
      let delta := distance (p.lat, p.lon) (q.lat, q.lon)
      match p.time, q.time with
      | some t, some pt =>
        if pySeconds pt t = 0 then .error .zeroDiv
        else .ok (dist + delta,
          ⟨p.lat, p.lon, p.time, p.ele, dist + delta, 3600 * delta / ((pySeconds pt t : ℤ) : ℝ)⟩)
      | _, _ => .ok (dist + delta, ⟨p.lat, p.lon, p.time, p.ele, dist + delta, 0⟩)
    else .ok (dist + 0, ⟨p.lat, p.lon, p.time, p.ele, dist + 0, 0⟩)
  | none => .ok (dist + 0, ⟨p.lat, p.lon, p.time, p.ele, dist + 0, 0⟩)

/-- Segment loop of the unguarded `eval_dist_velocity` variant. -/
noncomputable def evalSegU : ℝ → Option NPoint → List NPoint → Except PyErr (ℝ × List KPoint)
  | dist, _, [] => .ok (dist, [])
  | dist, prev, p :: ps =>
    match evalPointU dist prev p with
    | .error e => .error e
    | .ok r =>
      match evalSegU r.1 (some p) ps with
      | .error e => .error e
      | .ok rest => .ok (rest.1, r.2 :: rest.2)

/-- Track loop of the unguarded `eval_dist_velocity` variant. -/
noncomputable def evalTrkU : ℝ → List (List NPoint) → Except PyErr (List (List KPoint))
  | _, [] => .ok []
  | dist, seg :: rest =>
    if seg.isEmpty then evalTrkU dist rest
    else
      match evalSegU dist none seg with
      | .error e => .error e
      | .ok r =>
        match evalTrkU r.1 rest with
        | .error e => .error e
        | .ok t => .ok (r.2 :: t)

/-- `eval_dist_velocity(trk)` of `online/gpxutil.py` lines 111-133 (no
division-by-zero guard). -/
noncomputable def eval_dist_velocity_u (trk : List (List NPoint)) :
    Except PyErr (List (List KPoint)) :=
  evalTrkU 0 trk

/-- Elevation column of an evaluated track. -/
def elesOf (trk : List (List KPoint)) : List (List ℚ) := trk.map (List.map KPoint.ele)

/-- Cumulative-distance column of an evaluated track. -/
noncomputable def distsOf (trk : List (List KPoint)) : List (List ℝ) :=
  trk.map (List.map KPoint.dist)

/-- Velocity column of an evaluated track. -/
noncomputable def velsOf (trk : List (List KPoint)) : List (List ℝ) :=
  trk.map (List.map KPoint.vel)

/-- The cumulative distance recorded at the very last point of a track. -/
noncomputable def lastDist (trk : List (List KPoint)) : Option ℝ :=
  trk.getLast?.bind fun s => s.getLast?.map KPoint.dist

/-- The 64-symbol alphabet of the Google Chart extended encoding:
`enc='ABCDEFGHIJKLMNOPQRSTUVWXYZ'; enc=enc+enc.lower()+'0123456789-.'`. -/
def alphabetL : List Char :=
  "ABCDEFGHIJKLMNOPQRSTUVWXYZabcdefghijklmnopqrstuvwxyz0123456789-.".data

/-- `google_ext_encode(i)` (`online/gpxplot.py` lines 240-247) on an
integer: `i=int(i)%4096; figure=enc[int(i/len(enc))]+enc[int(i%len(enc))]`
with `len(enc)=64`.  Python `%` on integers is `Int.emod` (result
nonnegative for a positive modulus). -/
def google_ext_encode (v : ℤ) : String :=
  let i := (v.emod 4096).toNat
  String.mk [alphabetL.getD (i / 64) 'A', alphabetL.getD (i % 64) 'A']

/-- Modelled from the spec: the source repository contains no decoder for
the extended encoding (only the encoder `google_ext_encode`); the spec's
bijection sentence (`decode(encode(v)) == v mod 4096`) presupposes the
evident inverse, reading off each character's index in the 64-symbol
alphabet. -/
def google_ext_decode (s : String) : ℤ :=
  match s.data with
  | [c1, c2] => 64 * (alphabetL.indexOf c1 : ℤ) + (alphabetL.indexOf c2 : ℤ)
  | _ => 0

/-- Python `int()` on a real value: truncation toward zero. -/
noncomputable def intTrunc (x : ℝ) : ℤ := if 0 ≤ x then ⌊x⌋ else -⌊-x⌋

/-- `google_ext_encode` applied to a (float-valued) rescaled sample:
`int(i)` truncates toward zero before the modulo. -/
noncomputable def google_ext_encode_r (x : ℝ) : String :=
  google_ext_encode (intTrunc x)

/-- The per-series encoder chosen by `google_ext_encode_data`
(`online/gpxplot.py` lines 268-275): rescale into `[0,4095]` against the
series range when `max != min`, otherwise encode the constant 0. -/
noncomputable def scaleEnc (mn mx : ℝ) : ℝ → String :=
  if mx ≠ mn then fun v => google_ext_encode_r ((v - mn) * 4095 / (mx - mn))
  else fun _ => google_ext_encode 0

/-- Numeric value of column `j` of a kinematic point (`p[j]` on the Python
list `[lat, lon, time, ele, dist, vel]`).  Column 2 is the datetime object
and is never encoded numerically; it is mapped to 0 here. -/
noncomputable def KPoint.col (p : KPoint) : ℕ → ℝ
  | 0 => (p.lat : ℝ)
  | 1 => (p.lon : ℝ)
  | 3 => (p.ele : ℝ)
  | 4 => p.dist
  | 5 => p.vel
  | _ => 0

/-- The data-string builder of `google_ext_encode_data` (`online/gpxplot.py`
lines 276-278), abstracted over the two per-series encoders:
`'&chd=e:'` followed by, for each non-empty segment, the concatenated
x-codes, a `','`, and the concatenated y-codes, segments joined by `','`. -/
noncomputable def ext_encode_data_core (xe ye : ℝ → String) (x y : ℕ) (mlpkm fpm : ℝ)
    (trk : List (List KPoint)) : String :=
  "&chd=e:" ++ String.intercalate (",")
    ((trk.filter fun s => !s.isEmpty).map fun seg =>
      String.join (seg.map fun p => xe (p.col x * mlpkm)) ++ "," ++
        String.join (seg.map fun p => ye (p.col y * fpm)))

/-- `google_ext_encode_data(trk,x,y,min_x,max_x,min_y,max_y,metric)`
(`online/gpxplot.py` lines 263-279). -/
noncomputable def google_ext_encode_data (trk : List (List KPoint)) (x y : ℕ)
    (min_x max_x min_y max_y : ℝ) (metric : Bool) : String :=
  let mlpkm : ℝ := if metric then 1 else milesperkm
  let fpm : ℝ := if metric then 1 else feetperm
  ext_encode_data_core (scaleEnc min_x max_x) (scaleEnc min_y max_y) x y mlpkm fpm trk

/-- `max([max([p[j] for p in seg]) for seg in trk if len(seg) > 0])`:
`none` models the `ValueError` of `max` on an empty sequence. -/
noncomputable def trkColMax (trk : List (List KPoint)) (j : ℕ) : Option ℝ :=
  ((trk.filter fun s => !s.isEmpty).filterMap fun s => (s.map fun p => p.col j).max?).max?

/-- `min([min([p[j] for p in seg]) for seg in trk if len(seg) > 0])`. -/
noncomputable def trkColMin (trk : List (List KPoint)) (j : ℕ) : Option ℝ :=
  ((trk.filter fun s => !s.isEmpty).filterMap fun s => (s.map fun p => p.col j).min?).min?

/-- The final length check of `google_chart_url` (`online/gpxplot.py`
lines 303-305): `OverflowError` when the URL exceeds 2048 characters,
otherwise the URL is returned. -/
def checkLen (url : String) : Except PyErr (Option String) :=
  if url.length > 2048 then .error .overflow else .ok (some url)

/-- `google_chart_url(trk,x,y,metric)` (`online/gpxplot.py` lines 281-305).
The result models the four possible outcomes of the Python function:
`.ok none` is the bare `return` (after a printed message) taken for any
axis pair other than distance/elevation, `.error .valueErr` the
`ValueError` on an empty track (or `max()` over no non-empty segment),
`.error .overflow` the `OverflowError` when the URL exceeds 2048
characters, and `.ok (some url)` the returned URL. -/
noncomputable def google_chart_url (trk : List (List KPoint)) (x y : ℕ) (metric : Bool) :
    Except PyErr (Option String) :=
  if x ≠ var_dist ∨ y ≠ var_ele then .ok none
  else if trk.isEmpty then .error .valueErr
  else
    let ele_units : String := if metric then "m" else "ft"
    let dist_units : String := if metric then "km" else "miles"
    let mlpkm : ℝ := if metric then 1 else milesperkm
    let fpm : ℝ := if metric then 1 else feetperm
    let urlHead := "http://chart.apis.google.com/chart?chtt=gpxplot.appspot.com&chts=cccccc,9&"
    let url1 := "chs=600x400&chco=9090FF&cht=lxy&chxt=x,y,x,y&chxp=2,100|3,100&" ++
      "chxl=2:|distance, " ++ dist_units ++ "|3:|elevation, " ++ ele_units ++ "|"
    match trkColMax trk x, trkColMax trk y, trkColMin trk y with
    | some mx0, some my0, some ny0 =>
      let max_x := mlpkm * mx0
      let max_y := fpm * my0
      let min_y := fpm * ny0
      let rangeStr := "&chxr=0,0," ++ toString (intTrunc max_x) ++ "|1," ++
        toString (intTrunc min_y) ++ "," ++ toString (intTrunc max_y)
      let data := google_ext_encode_data trk x y 0 max_x min_y max_y metric
      let url := urlHead ++ url1 ++ rangeStr ++ data
      checkLen url
    | _, _, _ => .error .valueErr

/-- `max([max([p[y] for p in s]) for s in trk if len(s) > 0])` with
`y=var_ele` in `online/index.py` lines 62-63 (exact rational values). -/
def trkEleMax (trk : List (List KPoint)) : Option ℚ :=
  ((trk.filter fun s => !s.isEmpty).filterMap fun s => (s.map KPoint.ele).max?).max?

/-- The minimum variant of `trkEleMax`. -/
def trkEleMin (trk : List (List KPoint)) : Option ℚ :=
  ((trk.filter fun s => !s.isEmpty).filterMap fun s => (s.map KPoint.ele).min?).min?

/-- One iteration body of the retry loop of `plot_on_request`
(`online/index.py` lines 60-68): run the whole pipeline
(`read_all_segments`, `reduce_points` with the current budget,
`eval_dist_velocity`), check for altitude data, and build the chart URL
for the distance/elevation pair.  The `.ok none` outcome of
`google_chart_url` cannot occur for this axis pair (see
`google_chart_url_dist_ele_ne_none`); it is mapped to `.error .valueErr`
in this unreachable branch. -/
noncomputable def attempt (raw : List (List RawPoint)) (metric : Bool) (n : ℤ) :
    Except PyErr String :=
  match reduce_points (read_all_segments raw) (some n) with
  | none => .error .sliceStepZero
  | some reduced =>
    match trkEleMax (eval_dist_velocity reduced), trkEleMin (eval_dist_velocity reduced) with
    | some mx, some mn =>
      if |mx| < 1 / 1000 ∧ |mn| < 1 / 1000 then .error .noAltitude
      else
        match google_chart_url (eval_dist_velocity reduced) var_dist var_ele metric with
        | .ok (some u) => .ok u
        | .ok none => .error .valueErr
        | .error e => .error e
    | _, _ => .error .valueErr

/-- The retry loop of `plot_on_request` (`online/index.py` lines 55-73):
on `OverflowError` decrement the budget by 100 and retry from scratch;
once the decremented budget is `≤ 0`, re-raise; any other exception
propagates immediately. -/
noncomputable def plotLoop (f : ℤ → Except PyErr String) (n : ℤ) : Except PyErr String :=
  match f n with
  | .ok u => .ok u
  | .error .overflow =>
    if h : n - 100 ≤ 0 then .error .overflow
    else plotLoop f (n - 100)
  | .error .valueErr => .error .valueErr
  | .error .noAltitude => .error .noAltitude
  | .error .sliceStepZero => .error .sliceStepZero
  | .error .zeroDiv => .error .zeroDiv
termination_by n.toNat
decreasing_by omega

/-- `plot_on_request` of `online/index.py` (lines 55-73), starting from the
fixed budget `npoints=700`, abstracting away the HTTP/GPX-fetch glue. -/
noncomputable def plot_on_request (raw : List (List RawPoint)) (metric : Bool) :
    Except PyErr String :=
  plotLoop (attempt raw metric) 700

/-- First non-`OverflowError` outcome of `f` along a descending list of
budgets; an empty list re-raises the overflow. -/
def firstFit (f : ℤ → Except PyErr String) : List ℤ → Except PyErr String
  | [] => .error .overflow
  | n :: rest =>
    match f n with
    | .ok u => .ok u
    | .error .overflow => firstFit f rest
    | .error .valueErr => .error .valueErr
    | .error .noAltitude => .error .noAltitude
    | .error .sliceStepZero => .error .sliceStepZero
    | .error .zeroDiv => .error .zeroDiv

/-- The descending budget list `[100*k, 100*(k-1), ..., 100]`. -/
def budgetList : ℕ → List ℤ
  | 0 => []
  | k + 1 => (100 * ((k : ℤ) + 1)) :: budgetList k

/-- Length of a returned URL (0 for an exception outcome). -/
def urlLen : Except PyErr String → ℕ
  | .ok u => u.length
  | .error _ => 0

/-- Concrete three-point one-segment track for the counterexample to the
spec's reduction edge case. -/
def trk6 : List (List ℕ) := [[0, 1, 2]]

/-- Concrete one-point kinematic track used in the unsupported-pair
counterexample. -/
def trkC9 : List (List KPoint) := [[⟨0, 0, none, 0, 0, 0⟩]]

/-- Concrete one-point kinematic track used in the unsupported-pair
witness. -/
def trkC9w : List (List KPoint) := [[⟨1, 1, none, 2, 0, 0⟩]]

/-- The raw input of the spec's end-to-end equator scenario: one segment,
points at `(0,0), (0,1), (0,2)`, no timestamps, elevations
`[10, missing, 30]`. -/
def rawC1 : List (List RawPoint) :=
  [[⟨0, 0, none, some 10⟩, ⟨0, 1, none, none⟩, ⟨0, 2, none, some 30⟩]]

/-- Point A of the two-segment `[[A,B],[C]]` counterexample (north pole at
longitude 45, no timestamp). -/
def nA : NPoint := ⟨90, 45, none, 0⟩

/-- Point B of the two-segment counterexample (south pole). -/
def nB : NPoint := ⟨-90, 45, none, 0⟩

/-- Point C of the two-segment counterexample (north pole at
longitude −135). -/
def nC : NPoint := ⟨90, -135, none, 0⟩

/-- First point of the duplicate-timestamp segment (nonzero coordinates,
timestamp 1000). -/
def q4 : NPoint := ⟨1, 1, some 1000, 5⟩

/-- Second point of the duplicate-timestamp segment: same timestamp as
`q4`, different coordinates. -/
def p4 : NPoint := ⟨1, 2, some 1000, 6⟩

/-! ## General lemmas about the embedded definitions -/

theorem distance_nonneg (p1 p2 : ℚ × ℚ) : 0 ≤ distance p1 p2 := by
  unfold distance
  have h2 : 0 ≤ Real.arcsin (Real.sqrt
      (haversin ((p2.1 : ℝ) * π / 180 - (p1.1 : ℝ) * π / 180) +
        Real.cos ((p1.1 : ℝ) * π / 180) * Real.cos ((p2.1 : ℝ) * π / 180) *
          haversin ((p2.2 : ℝ) * π / 180 - (p1.2 : ℝ) * π / 180))) :=
    Real.arcsin_nonneg.mpr (Real.sqrt_nonneg _)
  have hR : (0 : ℝ) ≤ 2 * R := by norm_num [R]
  exact mul_nonneg hR h2

theorem haversin_sub_comm (a b : ℝ) : haversin (a - b) = haversin (b - a) := by
  unfold haversin
  rw [show (0.5 : ℝ) * (a - b) = -(0.5 * (b - a)) by ring, Real.sin_neg]
  ring

theorem distance_symm (p1 p2 : ℚ × ℚ) : distance p1 p2 = distance p2 p1 := by
  unfold distance
  rw [haversin_sub_comm ((p2.1 : ℝ) * π / 180), haversin_sub_comm ((p2.2 : ℝ) * π / 180),
    mul_comm (Real.cos ((p1.1 : ℝ) * π / 180))]

theorem alphabet_indexOf_getD :
    ∀ j : ℕ, j < 64 → alphabetL.indexOf (alphabetL.getD j 'A') = j := by
  decide

/-- Claim C8: the extended encoding is a bijection modulo 4096 between
integers and two-character codes over the 64-symbol alphabet: for every
integer `v`, `google_ext_encode v` is the two characters
`alphabet[(v mod 4096) / 64]` and `alphabet[(v mod 4096) % 64]`, decoding
the pair recovers `v mod 4096`, and two integers encode to the same pair
exactly when they agree modulo 4096. -/
theorem c8_ext_encoding_bijection (v w : ℤ) :
    google_ext_encode v =
      String.mk [alphabetL.getD ((v.emod 4096).toNat / 64) 'A',
        alphabetL.getD ((v.emod 4096).toNat % 64) 'A'] ∧
    (google_ext_encode v).length = 2 ∧
    google_ext_decode (google_ext_encode v) = v.emod 4096 ∧
    (google_ext_encode v = google_ext_encode w ↔ v.emod 4096 = w.emod 4096) := by
  have hrt : ∀ u : ℤ, google_ext_decode (google_ext_encode u) = u.emod 4096 := by
    intro u
    have h0 : 0 ≤ u.emod 4096 := Int.emod_nonneg u (by norm_num)
    have h1 : u.emod 4096 < 4096 := Int.emod_lt_of_pos u (by norm_num)
    have hlt : (u.emod 4096).toNat < 4096 := by omega
    have hdiv : (u.emod 4096).toNat / 64 < 64 := by omega
    have hmod : (u.emod 4096).toNat % 64 < 64 := Nat.mod_lt _ (by norm_num)
    unfold google_ext_encode google_ext_decode
    simp only [String.data]
    rw [alphabet_indexOf_getD _ hdiv, alphabet_indexOf_getD _ hmod]
    have := Nat.div_add_mod (u.emod 4096).toNat 64
    omega
  refine ⟨rfl, rfl, hrt v, ?_, ?_⟩
  · intro h
    have := congrArg google_ext_decode h
    rwa [hrt v, hrt w] at this
  · intro h
    unfold google_ext_encode
    rw [h]

/-- Claim C9 counterexample: requesting the time/elevation pair makes
`google_chart_url` return the ordinary non-URL value `None` (after a
printed message) — it does not surface any typed failure. -/
theorem c9_counterexample :
    google_chart_url trkC9 var_time var_ele true = .ok none ∧
      ∀ e : PyErr, google_chart_url trkC9 var_time var_ele true ≠ .error e := by
  have h : google_chart_url trkC9 var_time var_ele true = .ok none := by
    unfold google_chart_url
    rw [if_pos (Or.inl (by norm_num [var_time, var_dist]))]
  refine ⟨h, fun e hcon => ?_⟩
  rw [h] at hcon
  exact Except.noConfusion hcon

/-- Claim C9 (amended): for every requested axis pair other than
(x = distance, y = elevation), `google_chart_url` rejects the request by
printing a message and returning `None` (no URL) — an ordinary non-URL
return value, not a raised typed error. -/
theorem c9_amended (trk : List (List KPoint)) (x y : ℕ) (metric : Bool)
    (h : x ≠ var_dist ∨ y ≠ var_ele) :
    google_chart_url trk x y metric = .ok none := by
  unfold google_chart_url
  rw [if_pos h]

/-- Witness for `c9_amended` at a concrete input. -/
theorem c9_amended_witness :
    (var_vel ≠ var_dist ∨ var_ele ≠ var_ele) ∧
      google_chart_url trkC9w var_vel var_ele false = .ok none :=
  ⟨Or.inl (by decide), c9_amended trkC9w var_vel var_ele false (Or.inl (by decide))⟩

/-- For the distance/elevation pair `google_chart_url` never takes the
bare-`return` branch: its result is a URL or a raised exception. -/
theorem checkLen_ne_none (url : String) : checkLen url ≠ .ok none := by
  intro h
  unfold checkLen at h
  split at h
  · exact Except.noConfusion h
  · simp at h

theorem checkLen_ok_le (url u : String) (h : checkLen url = .ok (some u)) :
    u.length ≤ 2048 ∧ u = url := by
  unfold checkLen at h
  split at h
  · exact Except.noConfusion h
  · next hle =>
    have hu : u = url := (Option.some.inj (Except.ok.inj h)).symm
    subst hu
    exact ⟨by omega, rfl⟩

theorem google_chart_url_dist_ele_ne_none (trk : List (List KPoint)) (metric : Bool) :
    google_chart_url trk var_dist var_ele metric ≠ .ok none := by
  intro h
  unfold google_chart_url at h
  rw [if_neg (by simp)] at h
  repeat' split at h
  all_goals first
  | exact Except.noConfusion h
  | exact checkLen_ne_none _ h

/-- Claim C5: for a flat series (observed minimum equals observed maximum),
`google_ext_encode_data` uses the constant encoder `lambda y: enc(0)` for
that series — the rescaling division is never evaluated — so every point
of the series encodes to the two-character code for value 0, namely
`"AA"`. -/
theorem c5_flat_series (trk : List (List KPoint)) (x y : ℕ) (mnx mxx c : ℝ) (metric : Bool) :
    google_ext_encode_data trk x y mnx mxx c c metric =
      ext_encode_data_core (scaleEnc mnx mxx) (fun _ => google_ext_encode 0) x y
        (if metric then 1 else milesperkm) (if metric then 1 else feetperm) trk ∧
    (∀ v : ℝ, scaleEnc c c v = google_ext_encode 0) ∧
    google_ext_encode 0 = "AA" := by
  have hy : scaleEnc c c = fun _ => google_ext_encode 0 := by
    unfold scaleEnc
    rw [if_neg (by simp)]
  refine ⟨?_, ?_, ?_⟩
  · unfold google_ext_encode_data
    rw [hy]
  · intro v
    rw [hy]
  · decide

theorem everyNth_one (l : List α) : everyNth 1 l = l := by
  induction l with
  | nil => rfl
  | cons x xs ih =>
    show x :: everyNthGo 1 0 xs = x :: xs
    exact congrArg (x :: ·) ih

theorem optMap_eq_map (g : α → Option β) (f : α → β) :
    ∀ l : List α, (∀ a ∈ l, g a = some (f a)) → optMap g l = some (l.map f) := by
  intro l
  induction l with
  | nil => intro _; rfl
  | cons a as ih =>
    intro h
    rw [List.map_cons, optMap, h a (by simp), ih fun b hb => h b (by simp [hb])]

theorem segReducePos_eq (k : ℕ) (seg : List α) (a : α) (ha : seg.getLast? = some a) :
    segReducePos k seg = everyNth k seg.dropLast ++ [a] := by
  unfold segReducePos
  rw [ha]

theorem segReduce_eq_pos (k : ℤ) (hk : 1 ≤ k) (seg : List α) (h : seg ≠ []) :
    segReduce k seg = some (segReducePos k.toNat seg) := by
  obtain ⟨a, ha⟩ := Option.isSome_iff_exists.mp (List.getLast?_isSome.mpr h)
  unfold segReduce pySliceToLastBy
  rw [if_neg (by omega), if_pos (by omega), ha, segReducePos_eq k.toNat seg a ha]

theorem segReduce_one (seg : List α) (h : seg ≠ []) : segReduce 1 seg = some seg := by
  rw [segReduce_eq_pos 1 le_rfl seg h]
  obtain ⟨a, ha⟩ := Option.isSome_iff_exists.mp (List.getLast?_isSome.mpr h)
  rw [segReducePos_eq _ seg a ha, Int.toNat_one, everyNth_one]
  have hgl : seg.getLast h = a := by
    rw [List.getLast?_eq_getLast seg h] at ha
    exact Option.some.inj ha
  rw [show [a] = [seg.getLast h] by rw [hgl], List.dropLast_append_getLast h]

theorem mem_filter_nonempty (trk : List (List α)) (seg : List α)
    (h : seg ∈ trk.filter fun s => !s.isEmpty) : seg ≠ [] := by
  have := (List.mem_filter.mp h).2
  simpa [List.isEmpty_iff] using this

theorem filter_nonempty_of_count_zero (trk : List (List α)) (h : totalCount trk = 0) :
    (trk.filter fun s => !s.isEmpty) = [] := by
  rw [List.filter_eq_nil_iff]
  intro seg hseg
  have hlen : seg.length = 0 := by
    have := List.sum_eq_zero_iff.mp h (seg.length) (List.mem_map_of_mem List.length hseg)
    exact this
  simp [List.isEmpty_iff, List.eq_nil_of_length_eq_zero hlen]

theorem reduce_skip_one (trk : List (List α)) (n : ℤ)
    (h : n = 0 ∨ (1 ≤ totalCount trk ∧ (totalCount trk : ℤ) ≤ n)) :
    reduce_skip (totalCount trk) (some n) = 1 := by
  rcases h with h0 | ⟨hc, hn⟩
  · subst h0
    simp [reduce_skip]
  · have hn1 : (1 : ℤ) ≤ n := le_trans (by exact_mod_cast hc) hn
    simp only [reduce_skip]
    rw [if_neg (by omega)]
    have hnq : (0 : ℚ) < (n : ℚ) := by exact_mod_cast lt_of_lt_of_le one_pos hn1
    rw [Int.ceil_eq_iff]
    constructor
    · push_cast
      have : (0 : ℚ) < (totalCount trk : ℚ) := by exact_mod_cast hc
      simpa using div_pos this hnq
    · push_cast
      rw [div_le_one hnq]
      exact_mod_cast hn

/-- Claim C6 counterexample: invoking the reducer on a three-point
single-segment track with target `N = -1` does not behave as "no
reduction": the computed stride is `ceil(3/(-1)) = -3`, not 1, and the
Python slice `seg[:-1:-3]` is empty, so the segment collapses to just its
last point. -/
theorem c6_counterexample :
    reduce_skip (totalCount trk6) (some (-1)) = -3 ∧
      reduce_points trk6 (some (-1)) = some [[2]] ∧
      reduce_points trk6 (some (-1)) ≠ some trk6 := by
  have hc : totalCount trk6 = 3 := by decide
  have hs : reduce_skip (totalCount trk6) (some (-1)) = -3 := by
    rw [hc]
    simp only [reduce_skip]
    rw [if_neg (by norm_num),
      show ((3 : ℕ) : ℚ) / ((-1 : ℤ) : ℚ) = ((-3 : ℤ) : ℚ) by push_cast; norm_num,
      Int.ceil_intCast]
  have hr : reduce_points trk6 (some (-1)) = some [[2]] := by
    unfold reduce_points
    rw [hs]
    decide
  refine ⟨hs, hr, ?_⟩
  rw [hr]
  decide

/-- Claim C6 (amended): invoking the point reducer with `N = 0` (a falsy
count, treated as "no `N`"), or with `N` at least the total input point
count (on a track with at least one point), behaves as no reduction: the
computed stride is 1 and the output is exactly the non-empty segments,
unchanged.  (For negative `N` the stride is negative or zero instead: the
slice collapses each segment to its last point or raises, see the
counterexample.) -/
theorem c6_amended (α : Type) (trk : List (List α)) (n : ℤ)
    (h : n = 0 ∨ (1 ≤ totalCount trk ∧ (totalCount trk : ℤ) ≤ n)) :
    reduce_skip (totalCount trk) (some n) = 1 ∧
      reduce_points trk (some n) = some (trk.filter fun s => !s.isEmpty) := by
  have hs := reduce_skip_one trk n h
  refine ⟨hs, ?_⟩
  unfold reduce_points
  rw [hs]
  have := optMap_eq_map (segReduce (1 : ℤ)) id (trk.filter fun s => !s.isEmpty)
    fun seg hseg => by
      rw [segReduce_one seg (mem_filter_nonempty trk seg hseg)]
      rfl
  rw [this, List.map_id]

/-- Witness for `c6_amended` at a concrete input. -/
theorem c6_amended_witness :
    ((5 : ℤ) = 0 ∨ (1 ≤ totalCount ([[1, 2]] : List (List ℕ)) ∧
        (totalCount ([[1, 2]] : List (List ℕ)) : ℤ) ≤ 5)) ∧
      (reduce_skip (totalCount ([[1, 2]] : List (List ℕ))) (some 5) = 1 ∧
        reduce_points ([[1, 2]] : List (List ℕ)) (some 5) =
          some (([[1, 2]] : List (List ℕ)).filter fun s => !s.isEmpty)) :=
  ⟨Or.inr (by decide), c6_amended ℕ [[1, 2]] 5 (Or.inr (by decide))⟩

theorem segReducePos_ne_nil (k : ℕ) (seg : List α) (h : seg ≠ []) :
    segReducePos k seg ≠ [] := by
  obtain ⟨a, ha⟩ := Option.isSome_iff_exists.mp (List.getLast?_isSome.mpr h)
  rw [segReducePos_eq k seg a ha]
  simp

theorem segReducePos_head (k : ℕ) (seg : List α) (h : seg ≠ []) :
    (segReducePos k seg).head? = seg.head? := by
  cases seg with
  | nil => exact absurd rfl h
  | cons x xs =>
    obtain ⟨a, ha⟩ := Option.isSome_iff_exists.mp (List.getLast?_isSome.mpr h)
    rw [segReducePos_eq k _ a ha]
    cases xs with
    | nil =>
      have hax : x = a := by simpa using ha
      subst hax
      rfl
    | cons y ys =>
      rw [List.dropLast_cons₂]
      rfl

theorem segReducePos_getLast (k : ℕ) (seg : List α) (h : seg ≠ []) :
    (segReducePos k seg).getLast? = seg.getLast? := by
  obtain ⟨a, ha⟩ := Option.isSome_iff_exists.mp (List.getLast?_isSome.mpr h)
  rw [segReducePos_eq k seg a ha, List.getLast?_concat, ha]

/-- Claim C7: for every target count `N ≥ 1`, `reduce_points` maps each
non-empty segment to `seg[:-1:skip] + [seg[-1]]` (dropping empty segments
entirely), and every such reduced segment is non-empty, keeps the input
segment's first element as its first element and the input segment's last
element as its last element. -/
theorem c7_reducer_endpoints (α : Type) (trk : List (List α)) (n : ℤ) (h : 1 ≤ n) :
    reduce_points trk (some n) =
      some ((trk.filter fun s => !s.isEmpty).map
        (segReducePos (reduce_skip (totalCount trk) (some n)).toNat)) ∧
    ∀ seg : List α, seg ≠ [] →
      segReducePos (reduce_skip (totalCount trk) (some n)).toNat seg ≠ [] ∧
        (segReducePos (reduce_skip (totalCount trk) (some n)).toNat seg).head? = seg.head? ∧
        (segReducePos (reduce_skip (totalCount trk) (some n)).toNat seg).getLast? =
          seg.getLast? := by
  constructor
  · rcases Nat.eq_zero_or_pos (totalCount trk) with hz | hpos
    · unfold reduce_points
      rw [filter_nonempty_of_count_zero trk hz]
      rfl
    · have hk : 1 ≤ reduce_skip (totalCount trk) (some n) := by
        simp only [reduce_skip]
        rw [if_neg (by omega)]
        have hq : (0 : ℚ) < (totalCount trk : ℚ) / (n : ℚ) :=
          div_pos (by exact_mod_cast hpos) (by exact_mod_cast lt_of_lt_of_le one_pos h)
        have := Int.ceil_pos.mpr hq
        omega
      unfold reduce_points
      exact optMap_eq_map _ _ _ fun seg hseg =>
        segReduce_eq_pos _ hk seg (mem_filter_nonempty trk seg hseg)
  · intro seg hseg
    exact ⟨segReducePos_ne_nil _ seg hseg, segReducePos_head _ seg hseg,
      segReducePos_getLast _ seg hseg⟩

/-- Witness for `c7_reducer_endpoints` at a concrete input. -/
theorem c7_reducer_endpoints_witness :
    (1 : ℤ) ≤ 2 ∧
      (reduce_points ([[1, 2, 3], [4]] : List (List ℕ)) (some 2) =
        some ((([[1, 2, 3], [4]] : List (List ℕ)).filter fun s => !s.isEmpty).map
          (segReducePos (reduce_skip (totalCount ([[1, 2, 3], [4]] : List (List ℕ)))
            (some 2)).toNat)) ∧
      ∀ seg : List ℕ, seg ≠ [] →
        segReducePos (reduce_skip (totalCount ([[1, 2, 3], [4]] : List (List ℕ)))
            (some 2)).toNat seg ≠ [] ∧
          (segReducePos (reduce_skip (totalCount ([[1, 2, 3], [4]] : List (List ℕ)))
            (some 2)).toNat seg).head? = seg.head? ∧
          (segReducePos (reduce_skip (totalCount ([[1, 2, 3], [4]] : List (List ℕ)))
            (some 2)).toNat seg).getLast? = seg.getLast?) :=
  ⟨by norm_num, c7_reducer_endpoints ℕ [[1, 2, 3], [4]] 2 (by norm_num)⟩

/-- Claim C10: for a pair of consecutive points that both carry timestamps,
the velocity divisor used by the (guarded, `online/gpxplot.py`) kinematics
evaluator is `(t2 - t1).seconds`, i.e. the elapsed seconds reduced modulo
86400 with whole days discarded; two points exactly 24 hours apart give
divisor 0 (and hence velocity 0 through the guard); a pair whose second
timestamp precedes the first still gives a nonnegative divisor, and the
assigned velocity is always nonnegative, never an error value. -/
theorem c10_velocity_divisor (d : ℝ) (qlat qlon qele plat plon pele : ℚ) (tq tp : ℤ) :
    (evalPoint d (some ⟨qlat, qlon, some tq, qele⟩) ⟨plat, plon, some tp, pele⟩).2.vel =
      (if qlat ≠ 0 ∧ qlon ≠ 0 then
        (if pySeconds tq tp = 0 then 0
         else 3600 * distance (plat, plon) (qlat, qlon) / ((pySeconds tq tp : ℤ) : ℝ))
       else 0) ∧
    pySeconds tq tp = (tp - tq).emod 86400 ∧
    pySeconds tq (tq + 86400) = 0 ∧
    0 ≤ pySeconds tq tp ∧
    0 ≤ (evalPoint d (some ⟨qlat, qlon, some tq, qele⟩) ⟨plat, plon, some tp, pele⟩).2.vel := by
  have hsec : 0 ≤ pySeconds tq tp := Int.emod_nonneg _ (by norm_num)
  have hvel : (evalPoint d (some ⟨qlat, qlon, some tq, qele⟩) ⟨plat, plon, some tp, pele⟩).2.vel =
      (if qlat ≠ 0 ∧ qlon ≠ 0 then
        (if pySeconds tq tp = 0 then 0
         else 3600 * distance (plat, plon) (qlat, qlon) / ((pySeconds tq tp : ℤ) : ℝ))
       else 0) := by
    simp only [evalPoint]
    split_ifs with h1 h2 <;> rfl
  refine ⟨hvel, rfl, ?_, hsec, ?_⟩
  · show (tq + 86400 - tq) % 86400 = 0
    omega
  · rw [hvel]
    split_ifs with h1 h2
    · exact le_refl 0
    · apply div_nonneg
      · exact mul_nonneg (by norm_num) (distance_nonneg _ _)
      · exact_mod_cast hsec
    · exact le_refl 0

/-- Claim C4 (code-bug evidence): on the two-point segment `[q4, p4]` whose
points carry identical timestamps and nonzero coordinates, the unguarded
evaluator of `online/gpxutil.py` (the same expression is inlined in the
offline `gpxplot.py`) raises `ZeroDivisionError`, while the guarded
evaluator of `online/gpxplot.py` assigns velocity exactly 0 to both points
and raises nothing — the behaviour the spec describes. -/
theorem c4_zero_elapsed :
    eval_dist_velocity_u [[q4, p4]] = .error .zeroDiv ∧
      velsOf (eval_dist_velocity [[q4, p4]]) = [[0, 0]] := by
  constructor
  · simp [eval_dist_velocity_u, evalTrkU, evalSegU, evalPointU, q4, p4, pySeconds,
      Int.zero_emod]
  · simp [eval_dist_velocity, evalTrk, evalSeg, evalPoint, velsOf, q4, p4, pySeconds,
      Int.zero_emod]

theorem distance_pole (a b : ℚ) : distance (90, a) (-90, b) = R * π := by
  unfold distance haversin
  have h1 : ((-90 : ℚ) : ℝ) * π / 180 - ((90 : ℚ) : ℝ) * π / 180 = -π := by
    push_cast
    ring
  have h2 : ((90 : ℚ) : ℝ) * π / 180 = π / 2 := by
    push_cast
    ring
  simp only [Prod.fst, Prod.snd]
  rw [h1, h2, Real.cos_pi_div_two, zero_mul, zero_mul, add_zero,
    show (0.5 : ℝ) * -π = -(π / 2) by ring, Real.sin_neg, Real.sin_pi_div_two,
    show ((-1 : ℝ)) ^ 2 = 1 by norm_num, Real.sqrt_one, Real.arcsin_one]
  ring

theorem distance_pole_up (a b : ℚ) : distance (-90, a) (90, b) = R * π := by
  rw [distance_symm]
  exact distance_pole b a

theorem lastDist_two_seg (A B C : NPoint) (hA : A.lat ≠ 0) (hA' : A.lon ≠ 0) :
    lastDist (eval_dist_velocity [[A, B], [C]]) =
      some (distance (B.lat, B.lon) (A.lat, A.lon)) := by
  simp [eval_dist_velocity, evalTrk, evalSeg, evalPoint, lastDist, hA, hA']

/-- Claim C2 counterexample: for the two-segment track `[[A,B],[C]]` with
the pairwise distinct points `nA=(90,45)`, `nB=(-90,45)`, `nC=(90,-135)`,
the cumulative distance recorded at `C` is `dist(A,B) = R*pi`, not
`dist(A,B) + dist(B,C) = 2*R*pi`: the first point of a new segment
contributes distance delta 0, so the B-to-C great-circle distance is
never added. -/
theorem c2_counterexample :
    lastDist (eval_dist_velocity [[nA, nB], [nC]]) ≠
      some (distance (nA.lat, nA.lon) (nB.lat, nB.lon) +
        distance (nB.lat, nB.lon) (nC.lat, nC.lon)) := by
  have hlast : lastDist (eval_dist_velocity [[nA, nB], [nC]]) = some (R * π) := by
    rw [lastDist_two_seg nA nB nC (by norm_num [nA]) (by norm_num [nA])]
    have : distance (nB.lat, nB.lon) (nA.lat, nA.lon) = R * π := by
      show distance (-90, 45) (90, 45) = R * π
      exact distance_pole_up 45 45
    rw [this]
  have hAB : distance (nA.lat, nA.lon) (nB.lat, nB.lon) = R * π := by
    show distance (90, 45) (-90, 45) = R * π
    exact distance_pole 45 45
  have hBC : distance (nB.lat, nB.lon) (nC.lat, nC.lon) = R * π := by
    show distance (-90, 45) (90, -135) = R * π
    exact distance_pole_up 45 (-135)
  rw [hlast, hAB, hBC]
  intro h
  have h2 : R * π = R * π + R * π := Option.some.inj h
  have hpos : 0 < R * π := mul_pos (by norm_num [R]) Real.pi_pos
  linarith

/-- Claim C2 (amended): for every two-segment track `[[A,B],[C]]` whose
first point has nonzero latitude and longitude, the cumulative distance
recorded at `C` is exactly `dist(A,B)`: the running total carries forward
across the segment boundary, but the boundary step from `B` to `C`
contributes distance delta 0 (the evaluator resets its previous-point
state at each segment start). -/
theorem c2_amended (A B C : NPoint) (hA : A.lat ≠ 0) (hA' : A.lon ≠ 0) :
    lastDist (eval_dist_velocity [[A, B], [C]]) =
      some (distance (A.lat, A.lon) (B.lat, B.lon)) := by
  rw [lastDist_two_seg A B C hA hA', distance_symm]

/-- Witness for `c2_amended` at a concrete input. -/
theorem c2_amended_witness :
    nA.lat ≠ 0 ∧ nA.lon ≠ 0 ∧
      lastDist (eval_dist_velocity [[nA, nB], [nC]]) =
        some (distance (nA.lat, nA.lon) (nB.lat, nB.lon)) :=
  ⟨by norm_num [nA], by norm_num [nA],
    c2_amended nA nB nC (by norm_num [nA]) (by norm_num [nA])⟩

/-- Claim C1 (code-bug evidence): on the spec's end-to-end equator scenario
(`rawC1`: one segment, points `(0,0), (0,1), (0,2)`, no timestamps,
elevations `[10, missing, 30]`), normalization fills the elevations to
`[10, 10, 30]` and all velocities are 0 as the spec says, but the
cumulative distances are `[0, 0, 0]` instead of the expected
`≈ [0, 111.19, 222.39]` km: the Python truthiness test
`if prev_lat and prev_lon` is false whenever the previous latitude is
`0.0`, so every step on the equator is (mis)taken for a segment start.
The haversine distance the code was meant to add per step,
`distance((0,1),(0,0))`, is exactly `R*pi/180`, which lies strictly
between 111.19 and 111.20 km. -/
theorem c1_equator_pipeline :
    (read_all_segments rawC1).map (List.map NPoint.ele) = [[10, 10, 30]] ∧
    distsOf (eval_dist_velocity (read_all_segments rawC1)) = [[0, 0, 0]] ∧
    velsOf (eval_dist_velocity (read_all_segments rawC1)) = [[0, 0, 0]] ∧
    distance (0, 1) (0, 0) = R * (π / 180) ∧
    111.19 < R * (π / 180) ∧ R * (π / 180) < 111.20 := by
  have hn : read_all_segments rawC1 =
      [[⟨0, 0, none, 10⟩, ⟨0, 1, none, 10⟩, ⟨0, 2, none, 30⟩]] := by
    rfl
  have hd : distance (0, 1) (0, 0) = R * (π / 180) := by
    unfold distance haversin
    have e3 : ((0 : ℚ) : ℝ) * π / 180 - ((1 : ℚ) : ℝ) * π / 180 = -(π / 360) * 2 := by
      push_cast
      ring
    have e1 : ((0 : ℚ) : ℝ) * π / 180 - ((0 : ℚ) : ℝ) * π / 180 = 0 := by
      push_cast
      ring
    have e2 : ((0 : ℚ) : ℝ) * π / 180 = 0 := by
      push_cast
      ring
    simp only [Prod.fst, Prod.snd]
    rw [e3, e1, e2, Real.cos_zero,
      show (0.5 : ℝ) * (0 : ℝ) = 0 by ring, Real.sin_zero,
      show (0.5 : ℝ) * (-(π / 360) * 2) = -(π / 360) by ring, Real.sin_neg,
      show ((0 : ℝ)) ^ 2 + 1 * 1 * (-Real.sin (π / 360)) ^ 2 = Real.sin (π / 360) ^ 2 by ring,
      Real.sqrt_sq (Real.sin_nonneg_of_nonneg_of_le_pi (by positivity)
        (by nlinarith [Real.pi_pos])),
      Real.arcsin_sin (by nlinarith [Real.pi_pos]) (by nlinarith [Real.pi_pos])]
    ring
  refine ⟨by rw [hn]; rfl, ?_, ?_, hd, ?_, ?_⟩
  · rw [hn]
    simp [eval_dist_velocity, evalTrk, evalSeg, evalPoint, distsOf]
  · rw [hn]
    simp [eval_dist_velocity, evalTrk, evalSeg, evalPoint, velsOf]
  · have hl := Real.pi_gt_d6
    unfold R
    nlinarith
  · have hu := Real.pi_lt_d6
    unfold R
    nlinarith

theorem plotLoop_unfold (f : ℤ → Except PyErr String) (n : ℤ) :
    plotLoop f n =
      match f n with
      | .ok u => .ok u
      | .error .overflow =>
        if _h : n - 100 ≤ 0 then .error .overflow else plotLoop f (n - 100)
      | .error .valueErr => .error .valueErr
      | .error .noAltitude => .error .noAltitude
      | .error .sliceStepZero => .error .sliceStepZero
      | .error .zeroDiv => .error .zeroDiv := by
  rw [plotLoop]

theorem firstFit_cons (f : ℤ → Except PyErr String) (n : ℤ) (rest : List ℤ) :
    firstFit f (n :: rest) =
      match f n with
      | .ok u => .ok u
      | .error .overflow => firstFit f rest
      | .error .valueErr => .error .valueErr
      | .error .noAltitude => .error .noAltitude
      | .error .sliceStepZero => .error .sliceStepZero
      | .error .zeroDiv => .error .zeroDiv := rfl

theorem plotLoop_eq_firstFit (f : ℤ → Except PyErr String) :
    ∀ k : ℕ, plotLoop f (100 * ((k : ℤ) + 1)) = firstFit f (budgetList (k + 1)) := by
  intro k
  induction k with
  | zero =>
    rw [plotLoop_unfold,
      show budgetList (0 + 1) = [100 * (((0 : ℕ) : ℤ) + 1)] from rfl, firstFit_cons]
    cases hf : f (100 * (((0 : ℕ) : ℤ) + 1)) with
    | ok u => simp [hf]
    | error e =>
      cases e <;> simp only [hf] <;>
        (rw [dif_pos (by norm_num)]; rfl)
  | succ k ih =>
    rw [plotLoop_unfold,
      show budgetList (k + 1 + 1) = (100 * (((k + 1 : ℕ) : ℤ) + 1)) :: budgetList (k + 1)
        from rfl,
      firstFit_cons]
    cases hf : f (100 * (((k + 1 : ℕ) : ℤ) + 1)) with
    | ok u => simp [hf]
    | error e =>
      cases e <;> simp only [hf] <;>
        (rw [dif_neg (by push_cast; omega),
           show (100 : ℤ) * (((k + 1 : ℕ) : ℤ) + 1) - 100 = 100 * ((k : ℤ) + 1) by
             push_cast; ring]
         exact ih)

theorem google_chart_url_ok_le (trk : List (List KPoint)) (x y : ℕ) (metric : Bool)
    (u : String) (h : google_chart_url trk x y metric = .ok (some u)) :
    u.length ≤ 2048 := by
  unfold google_chart_url at h
  repeat' split at h
  all_goals first
  | exact (checkLen_ok_le _ u h).1
  | exact Except.noConfusion h
  | simp_all

theorem attempt_ok_le (raw : List (List RawPoint)) (metric : Bool) (n : ℤ) (u : String)
    (h : attempt raw metric n = .ok u) : u.length ≤ 2048 := by
  unfold attempt at h
  repeat' split at h
  all_goals first
  | exact Except.noConfusion h
  | (rw [Except.ok.injEq] at h
     subst h
     exact google_chart_url_ok_le _ _ _ _ _ (by assumption))

theorem urlLen_firstFit_le (f : ℤ → Except PyErr String)
    (hf : ∀ n u, f n = .ok u → u.length ≤ 2048) :
    ∀ l : List ℤ, urlLen (firstFit f l) ≤ 2048 := by
  intro l
  induction l with
  | nil => simp [firstFit, urlLen]
  | cons n rest ih =>
    rw [firstFit_cons]
    cases hfn : f n with
    | ok u => simpa [urlLen] using hf n u hfn
    | error e =>
      cases e <;> simp only [] <;>
        first
        | exact ih
        | simp [urlLen]

/-- Claim C3: `plot_on_request` starts at budget 700 and, on each
`OverflowError` from the pipeline-plus-encoding attempt, decrements the
budget by exactly 100 and re-runs the entire attempt from scratch; the
loop is total and equal to trying the budgets 700, 600, ..., 100 in order,
returning the first non-overflow outcome (a URL, or a propagated
non-overflow exception) and re-raising the overflow failure once the
budget would reach 0; any returned URL has length at most 2048 (the data
series is never truncated — the result is always the full output of one
attempt). -/
theorem c3_retry_loop (raw : List (List RawPoint)) (metric : Bool) :
    plot_on_request raw metric =
      firstFit (attempt raw metric) [700, 600, 500, 400, 300, 200, 100] ∧
    urlLen (plot_on_request raw metric) ≤ 2048 := by
  have hb : budgetList 7 = [700, 600, 500, 400, 300, 200, 100] := by
    norm_num [budgetList]
  have heq : plot_on_request raw metric =
      firstFit (attempt raw metric) [700, 600, 500, 400, 300, 200, 100] := by
    have h700 := plotLoop_eq_firstFit (attempt raw metric) 6
    norm_num at h700
    unfold plot_on_request
    rw [h700, hb]
  refine ⟨heq, ?_⟩
  rw [heq]
  exact urlLen_firstFit_le _ (fun n u h => attempt_ok_le raw metric n u h) _

end Gpxplot
